import Mathlib

/-!
Verification development for the drone-GCS lifecycle session orchestrator.

Shallow embedding of:
- `src/radio_telemetry_tracker_drone_gcs/comms/state_machine.py`
  (`DroneState`, `StateTransition`, `DroneStateMachine`), and
- `src/radio_telemetry_tracker_drone_gcs/comms/communication_bridge.py`
  (`CommunicationBridge`: the per-phase send operations, response callbacks and
  timeout checks).

Python dictionaries keyed by states are embedded as association lists with
overwrite-on-insert; Qt signal emissions are embedded as elements appended to
an explicit notification trace; calls into the external comms collaborator
(`DroneCommsService`) and `QTimer.singleShot` are embedded as elements of an
explicit action trace; a Python exception raised by a callback is embedded as
an `Option String` result (`some msg` = raised).
-/

/-- Lookup in an association list, as Python `d[k]` / `k in d`. -/
def dictGet? {κ α : Type} [DecidableEq κ] : List (κ × α) → κ → Option α
  | [], _ => none
  | (k, v) :: rest, key => if k = key then some v else dictGet? rest key

/-- Assignment `d[k] = v` on an association list: replaces the binding for `k`
if present (Python dict overwrite), otherwise appends it. -/
def dictInsert {κ α : Type} [DecidableEq κ] : List (κ × α) → κ → α → List (κ × α)
  | [], key, v => [(key, v)]
  | (k, w) :: rest, key, v =>
      if k = key then (key, v) :: rest else (k, w) :: dictInsert rest key v

/-- `DroneState` exactly as defined in `state_machine.py` lines 13-21:
six members. (Note: `communication_bridge.py` references ten different
lifecycle members; see `LifecycleState` below.) -/
inductive DroneState where
  | DISCONNECTED
  | CONNECTING
  | CONFIGURING
  | READY
  | RUNNING
  | ERROR
  deriving DecidableEq, Repr

/-- All members of the source `DroneState` enum, in declaration order. -/
def droneStateMembers : List DroneState :=
  [.DISCONNECTED, .CONNECTING, .CONFIGURING, .READY, .RUNNING, .ERROR]

/-- The Python attribute name of each `DroneState` member. -/
def DroneState.pyName : DroneState → String
  | .DISCONNECTED => "DISCONNECTED"
  | .CONNECTING => "CONNECTING"
  | .CONFIGURING => "CONFIGURING"
  | .READY => "READY"
  | .RUNNING => "RUNNING"
  | .ERROR => "ERROR"

/-- The `DroneState.<member>` attribute names that `communication_bridge.py`
evaluates (handler registration in `_setup_state_handlers`, and every
`transition_to` call site). -/
def bridgeReferencedStateNames : List String :=
  ["RADIO_CONFIG_INPUT", "RADIO_CONFIG_WAITING",
   "PING_FINDER_CONFIG_INPUT", "PING_FINDER_CONFIG_WAITING",
   "START_INPUT", "START_WAITING",
   "STOP_INPUT", "STOP_WAITING",
   "ERROR"]

/-- `StateTransition` from `state_machine.py`, generic in the state type. -/
structure StateTransition (σ : Type) where
  from_state : σ
  to_state : σ
  success_message : String
  failure_message : String
  deriving DecidableEq

/-- The two Qt signals of `DroneStateMachine`: `state_changed(state)` and
`state_error(msg)`. -/
inductive SMEvent (σ : Type) where
  | state_changed (s : σ)
  | state_error (msg : String)
  deriving DecidableEq

/-- The mutable state of `DroneStateMachine`, generic in the state type `σ`
and the handler type `H` (Python callables are opaque values here; their
behaviour is supplied separately to `transitionTo` as `run : H → Option String`,
where `some e` means the call raised an exception with message `e`). -/
structure DroneStateMachine (σ : Type) (H : Type) where
  current_state : σ
  transition_handlers : List (σ × H) := []
  error_handlers : List (σ × H) := []
  /-- Modelled from the spec: `communication_bridge.py` calls
  `register_timeout_handler`, which is absent from `state_machine.py`;
  the spec describes it as a single-slot per-state table like the
  transition-handler table. -/
  timeout_handlers : List (σ × H) := []

/-- `DroneStateMachine.register_transition_handler`: dict assignment. -/
def register_transition_handler {σ H : Type} [DecidableEq σ]
    (m : DroneStateMachine σ H) (state : σ) (handler : H) :
    DroneStateMachine σ H :=
  { m with transition_handlers := dictInsert m.transition_handlers state handler }

/-- `DroneStateMachine.register_error_handler`: dict assignment. -/
def register_error_handler {σ H : Type} [DecidableEq σ]
    (m : DroneStateMachine σ H) (state : σ) (handler : H) :
    DroneStateMachine σ H :=
  { m with error_handlers := dictInsert m.error_handlers state handler }

/-- Modelled from the spec: `register_timeout_handler(state, handler)` —
called by the bridge but missing from `state_machine.py`; per the spec it
overwrites any prior registration for that state (single slot per state). -/
def register_timeout_handler {σ H : Type} [DecidableEq σ]
    (m : DroneStateMachine σ H) (state : σ) (handler : H) :
    DroneStateMachine σ H :=
  { m with timeout_handlers := dictInsert m.timeout_handlers state handler }

/-- Modelled from the spec: the timeout handler that would be invoked when
state `s`'s deadline elapses — the one registered for `s`, if any. -/
def timeoutHandlerFor {σ H : Type} [DecidableEq σ]
    (m : DroneStateMachine σ H) (s : σ) : Option H :=
  dictGet? m.timeout_handlers s

/-- The error message built at `state_machine.py` lines 83-86 (Python
f-string; `name` renders a state as Python `str()` does). -/
def invalidTransitionMsg (current new expected : String) : String :=
  "Invalid state transition from " ++ current ++ " to " ++ new ++
    ". Expected from state: " ++ expected

/-- The error message built at `state_machine.py` line 99. -/
def handlerErrorMsg (e : String) : String :=
  "Error in transition handler: " ++ e

/-- The commit half of `transition_to` (`state_machine.py` lines 91-104):
set `current_state` to `new_state` first, then invoke the transition handler
registered for `new_state` (if any); a handler exception is caught, emitted
as `state_error`, and the function returns without emitting `state_changed`;
otherwise `state_changed` is emitted. Returns (machine, emitted events,
invoked handlers). -/
def transitionCommit {σ H : Type} [DecidableEq σ]
    (m : DroneStateMachine σ H) (run : H → Option String) (new_state : σ) :
    DroneStateMachine σ H × List (SMEvent σ) × List H :=
  let m' := { m with current_state := new_state }
  match dictGet? m.transition_handlers new_state with
  | some h =>
      match run h with
      | some e => (m', [SMEvent.state_error (handlerErrorMsg e)], [h])
      | none => (m', [SMEvent.state_changed new_state], [h])
  | none => (m', [SMEvent.state_changed new_state], [])

/-- `DroneStateMachine.transition_to` (`state_machine.py` lines 75-104).
If a transition record is supplied and its `from_state` differs from the
current state, the call is rejected: one `state_error` naming the actual and
expected states, no mutation, no handler invocation. Otherwise the commit
path runs. -/
def transitionTo {σ H : Type} [DecidableEq σ]
    (m : DroneStateMachine σ H) (run : H → Option String) (name : σ → String)
    (new_state : σ) (transition : Option (StateTransition σ)) :
    DroneStateMachine σ H × List (SMEvent σ) × List H :=
  match transition with
  | some t =>
      if t.from_state ≠ m.current_state then
        (m, [SMEvent.state_error
              (invalidTransitionMsg (name m.current_state) (name new_state)
                (name t.from_state))], [])
      else
        transitionCommit m run new_state
  | none => transitionCommit m run new_state

/-- `DroneStateMachine.handle_error` (`state_machine.py` lines 106-118):
invokes the error handler for the current state if one is registered (its
exceptions are swallowed), then always emits `state_error`. -/
def handle_error {σ H : Type} [DecidableEq σ]
    (m : DroneStateMachine σ H) (error_msg : String) :
    List (SMEvent σ) × List H :=
  match dictGet? m.error_handlers m.current_state with
  | some h => ([SMEvent.state_error error_msg], [h])
  | none => ([SMEvent.state_error error_msg], [])

/-!
## The lifecycle state set used by `CommunicationBridge`

Modelled from the spec: `communication_bridge.py` references ten lifecycle
members of `DroneState` (`RADIO_CONFIG_INPUT`, `RADIO_CONFIG_WAITING`,
`PING_FINDER_CONFIG_INPUT`, `PING_FINDER_CONFIG_WAITING`, `START_INPUT`,
`START_WAITING`, `STOP_INPUT`, `STOP_WAITING`, `ERROR`, plus the machine's
initial `DISCONNECTED`), which are missing from `state_machine.py`'s
`DroneState` (see `droneStateMembers`). The bridge model below uses this
spec-described state set; all bridge logic itself is translated from
`communication_bridge.py`.
-/

/-- Modelled from the spec: the ten-value lifecycle state enumeration the
bridge's code references (spec §3 `LifecycleState`; spec name `PingConfig*`
corresponds to the bridge's `PING_FINDER_CONFIG_*`). -/
inductive LifecycleState where
  | DISCONNECTED
  | RADIO_CONFIG_INPUT
  | RADIO_CONFIG_WAITING
  | PING_FINDER_CONFIG_INPUT
  | PING_FINDER_CONFIG_WAITING
  | START_INPUT
  | START_WAITING
  | STOP_INPUT
  | STOP_WAITING
  | ERROR
  deriving DecidableEq, Repr

/-- Python `str()` rendering of a lifecycle state member. -/
def lifecycleName : LifecycleState → String
  | .DISCONNECTED => "DroneState.DISCONNECTED"
  | .RADIO_CONFIG_INPUT => "DroneState.RADIO_CONFIG_INPUT"
  | .RADIO_CONFIG_WAITING => "DroneState.RADIO_CONFIG_WAITING"
  | .PING_FINDER_CONFIG_INPUT => "DroneState.PING_FINDER_CONFIG_INPUT"
  | .PING_FINDER_CONFIG_WAITING => "DroneState.PING_FINDER_CONFIG_WAITING"
  | .START_INPUT => "DroneState.START_INPUT"
  | .START_WAITING => "DroneState.START_WAITING"
  | .STOP_INPUT => "DroneState.STOP_INPUT"
  | .STOP_WAITING => "DroneState.STOP_WAITING"
  | .ERROR => "DroneState.ERROR"

/-- The five request/response phases of the bridge. -/
inductive Phase where
  | sync
  | config
  | start
  | stop
  | disconnect
  deriving DecidableEq, Repr

/-- The Qt signals `CommunicationBridge` emits on lifecycle phases
(lines 52-77), plus `fatal_error` (also reached via the
`state_error -> fatal_error` connection at line 111). -/
inductive Notification where
  | syncSuccess (msg : String)
  | syncFailure (msg : String)
  | syncTimeout
  | configSuccess (msg : String)
  | configFailure (msg : String)
  | configTimeout
  | startSuccess (msg : String)
  | startFailure (msg : String)
  | startTimeout
  | stopSuccess (msg : String)
  | stopFailure (msg : String)
  | stopTimeout
  | disconnectSuccess (msg : String)
  | disconnectFailure (msg : String)
  | fatalError
  deriving DecidableEq, Repr

/-- Which bridge callback is registered in the comms service's stop-response
slot: `send_stop_request` registers `_on_stop_response`, `disconnect`
registers `_on_disconnect_response` (both for the stop-response kind). -/
inductive StopCb where
  | onStop
  | onDisconnect
  deriving DecidableEq, Repr

/-- Calls the bridge makes into the external collaborators
(`DroneCommsService` methods and `QTimer.singleShot`), recorded as a trace. -/
inductive CommsAction where
  | registerErrorHandler
  | registerSyncResponseHandler
  | registerConfigResponseHandler
  | registerStartResponseHandler
  | registerStopResponseHandler
  | registerGpsHandler
  | registerPingHandler
  | registerLocEstHandler
  | unregisterGpsHandler
  | unregisterPingHandler
  | unregisterLocEstHandler
  | sendSyncRequest
  | sendConfigRequest
  | sendStartRequest
  | sendStopRequest
  | commsStop
  | armTimer (phase : Phase) (ms : Nat)
  deriving DecidableEq, Repr

/-- The transition handlers registered in `_setup_state_handlers`
(lines 128-149): each is a lambda calling a `register_*_response_handler`
method on `self._comms_service`; and the timeout handlers (lines 152-167):
lambdas emitting the phase timeout signal. -/
inductive BridgeHandler where
  | regSyncResp
  | regConfigResp
  | regStartResp
  | regStopResp
  | emitSyncTimeout
  | emitConfigTimeout
  | emitStartTimeout
  | emitStopTimeout
  deriving DecidableEq, Repr

/-- The bridge-side mutable state: `_comms_service` presence (`connected`),
the comms service's handler-slot occupancy (external single-slot one-shot
registry, spec §2 Response Registry), the per-phase `_*_response_received`
flags, the state machine's current state, and the ack parameters stored in
the comms service. `ackTimeout` (Python float, seconds) is embedded as `ℚ`. -/
structure Bridge where
  connected : Bool
  syncRegistered : Bool := false
  configRegistered : Bool := false
  startRegistered : Bool := false
  stopRegistered : Option StopCb := none
  gpsRegistered : Bool := false
  pingRegistered : Bool := false
  locEstRegistered : Bool := false
  syncResponseReceived : Bool := false
  configResponseReceived : Bool := false
  startResponseReceived : Bool := false
  stopResponseReceived : Bool := false
  disconnectResponseReceived : Bool := false
  smState : LifecycleState
  ackTimeout : ℚ := 0
  maxRetries : Nat := 0
  deriving DecidableEq

/-- Result of running one bridge operation: the new bridge state, the
notification signals emitted (in order), the external-collaborator calls made
(in order), the `transition_to` invocations made (target state, and whether a
`StateTransition` record was passed), and the Python return value if the
operation returns a `bool`. -/
structure Step where
  bridge : Bridge
  notifs : List Notification := []
  acts : List CommsAction := []
  calls : List (LifecycleState × Bool) := []
  retval : Option Bool := none
  deriving DecidableEq

/-- The transition-handler table registered by `_setup_state_handlers`. -/
def bridgeTransitionHandlers : List (LifecycleState × BridgeHandler) :=
  [(.RADIO_CONFIG_WAITING, .regSyncResp),
   (.PING_FINDER_CONFIG_WAITING, .regConfigResp),
   (.START_WAITING, .regStartResp),
   (.STOP_WAITING, .regStopResp)]

/-- The timeout-handler table registered by `_setup_state_handlers`
(registered via the spec-modelled `register_timeout_handler`). -/
def bridgeTimeoutHandlers : List (LifecycleState × BridgeHandler) :=
  [(.RADIO_CONFIG_WAITING, .emitSyncTimeout),
   (.PING_FINDER_CONFIG_WAITING, .emitConfigTimeout),
   (.START_WAITING, .emitStartTimeout),
   (.STOP_WAITING, .emitStopTimeout)]

/-- Whether a registered bridge handler raises when invoked: the four
`register_*_response_handler` lambdas dereference `self._comms_service` and
raise `AttributeError` if it is `None`; the timeout lambdas never raise. -/
def runBridgeHandler (connected : Bool) : BridgeHandler → Option String
  | .regSyncResp | .regConfigResp | .regStartResp | .regStopResp =>
      if connected then none
      else some "'NoneType' object has no attribute 'register'"
  | _ => none

/-- The effect of a successfully-invoked bridge handler on the bridge state,
the signals it emits, and the comms-service calls it makes. -/
def applyHandler (b : Bridge) : BridgeHandler → Bridge × List Notification × List CommsAction
  | .regSyncResp =>
      ({ b with syncRegistered := true }, [], [CommsAction.registerSyncResponseHandler])
  | .regConfigResp =>
      ({ b with configRegistered := true }, [], [CommsAction.registerConfigResponseHandler])
  | .regStartResp =>
      ({ b with startRegistered := true }, [], [CommsAction.registerStartResponseHandler])
  | .regStopResp =>
      ({ b with stopRegistered := some .onStop }, [], [CommsAction.registerStopResponseHandler])
  | .emitSyncTimeout => (b, [Notification.syncTimeout], [])
  | .emitConfigTimeout => (b, [Notification.configTimeout], [])
  | .emitStartTimeout => (b, [Notification.startTimeout], [])
  | .emitStopTimeout => (b, [Notification.stopTimeout], [])

/-- Fold `applyHandler` over the handlers that were invoked and did not raise
(`transitionTo` invokes at most one). -/
def applyInvoked (b : Bridge) (connected : Bool) :
    List BridgeHandler → Bridge × List Notification × List CommsAction
  | [] => (b, [], [])
  | h :: rest =>
      match runBridgeHandler connected h with
      | some _ => applyInvoked b connected rest
      | none =>
          let r := applyHandler b h
          let r' := applyInvoked r.1 connected rest
          (r'.1, r.2.1 ++ r'.2.1, r.2.2 ++ r'.2.2)

/-- `state_error` is connected to `fatal_error.emit` (line 111);
`state_changed` is not connected to any bridge signal. -/
def smEventNotifs {σ : Type} : List (SMEvent σ) → List Notification
  | [] => []
  | SMEvent.state_changed _ :: rest => smEventNotifs rest
  | SMEvent.state_error _ :: rest => Notification.fatalError :: smEventNotifs rest

/-- A `self._state_machine.transition_to(new, rec)` call made by the bridge:
runs `transition_to` against the machine whose handler tables are the fixed
ones from `_setup_state_handlers`, applies the invoked handler's effects, and
converts machine events to bridge signals. -/
def smTransition (b : Bridge) (new : LifecycleState)
    (rec : Option (StateTransition LifecycleState)) : Step :=
  let m : DroneStateMachine LifecycleState BridgeHandler :=
    { current_state := b.smState,
      transition_handlers := bridgeTransitionHandlers,
      timeout_handlers := bridgeTimeoutHandlers }
  let r := transitionTo m (runBridgeHandler b.connected) lifecycleName new rec
  let b' := { b with smState := r.1.current_state }
  let eff := applyInvoked b' b.connected r.2.2
  { bridge := eff.1,
    notifs := eff.2.1 ++ smEventNotifs r.2.1,
    acts := eff.2.2,
    calls := [(new, rec.isSome)] }

/-- `CommunicationBridge._cleanup` (lines 763-768): stop and drop the comms
service if present, force the state machine to `RADIO_CONFIG_INPUT` (no
transition record), emit `disconnect_success("Disconnected")`. -/
def cleanup (b : Bridge) : Step :=
  let stopActs := if b.connected then [CommsAction.commsStop] else []
  let b1 := { b with connected := false }
  let t := smTransition b1 .RADIO_CONFIG_INPUT none
  { bridge := t.bridge,
    notifs := t.notifs ++ [Notification.disconnectSuccess "Disconnected"],
    acts := stopActs ++ t.acts,
    calls := t.calls }

/-- Where, if anywhere, the `try` body of a send operation raises:
`atBuild e` = during request construction / configuration parsing (before any
service call), `atSend e` = the transport-level `send_*_request` call raises
(`e` is the exception text). -/
inductive FailPoint where
  | ok
  | atBuild (e : String)
  | atSend (e : String)
  deriving DecidableEq, Repr

/-- The `StateTransition` record built in `initialize_comms` (lines 218-223). -/
def connectTransition : StateTransition LifecycleState :=
  { from_state := .RADIO_CONFIG_INPUT,
    to_state := .RADIO_CONFIG_WAITING,
    success_message := "Drone connected successfully",
    failure_message := "Failed to connect to drone" }

/-- `CommunicationBridge.initialize_comms` (lines 181-237). In source order:
parse the radio config and ack parameters (`atBuild` failures raise here),
create and start `DroneCommsService` (sets `_comms_service`), register the
error-packet handler, `transition_to(RADIO_CONFIG_WAITING, connectTransition)`,
`send_sync_request()` (`atSend` failures raise here), reset
`_sync_response_received`, arm `QTimer.singleShot(int(ack*retries*1000))`.
Any exception is caught: `sync_failure("Initialize comms failed: ...")` is
emitted and `False` returned; effects already performed are kept. -/
def init_comms (b : Bridge) (ack : ℚ) (retries : Nat) (fp : FailPoint) : Step :=
  match fp with
  | .atBuild e =>
      { bridge := b,
        notifs := [Notification.syncFailure ("Initialize comms failed: " ++ e)],
        retval := some false }
  | .atSend e =>
      let b1 := { b with connected := true, ackTimeout := ack, maxRetries := retries }
      let t := smTransition b1 .RADIO_CONFIG_WAITING (some connectTransition)
      { bridge := t.bridge,
        notifs := t.notifs ++ [Notification.syncFailure ("Initialize comms failed: " ++ e)],
        acts := CommsAction.registerErrorHandler :: t.acts,
        calls := t.calls,
        retval := some false }
  | .ok =>
      let b1 := { b with connected := true, ackTimeout := ack, maxRetries := retries }
      let t := smTransition b1 .RADIO_CONFIG_WAITING (some connectTransition)
      let tt := ack * (retries : ℚ)
      { bridge := { t.bridge with syncResponseReceived := false },
        notifs := t.notifs,
        acts := CommsAction.registerErrorHandler :: t.acts ++
          [CommsAction.sendSyncRequest,
           CommsAction.armTimer .sync (tt * 1000).floor.toNat],
        calls := t.calls,
        retval := some true }

/-- `CommunicationBridge.send_config_request` (lines 268-299): not-connected
guard, build `ConfigRequestData` (`atBuild` = coercion failure), register the
config response handler (once), send (`atSend`), reset the flag, arm the
deadline timer; an exception emits `config_failure(str(e))` and returns
`False`. -/
def send_config_request (b : Bridge) (fp : FailPoint) : Step :=
  if !b.connected then
    { bridge := b,
      notifs := [Notification.configFailure "UNDEFINED BEHAVIOR: Not Connected."],
      retval := some false }
  else
    match fp with
    | .atBuild e =>
        { bridge := b, notifs := [Notification.configFailure e], retval := some false }
    | .atSend e =>
        { bridge := { b with configRegistered := true },
          notifs := [Notification.configFailure e],
          acts := [CommsAction.registerConfigResponseHandler],
          retval := some false }
    | .ok =>
        let tt := b.ackTimeout * (b.maxRetries : ℚ)
        { bridge := { b with configRegistered := true, configResponseReceived := false },
          notifs := [],
          acts := [CommsAction.registerConfigResponseHandler,
                   CommsAction.sendConfigRequest,
                   CommsAction.armTimer .config (tt * 1000).floor.toNat],
          retval := some true }

/-- `CommunicationBridge.send_start_request` (lines 313-332): not-connected
guard, register the start response handler (once), send (`atSend` raises),
reset the flag, arm the deadline timer. There is no request payload, so no
`atBuild` point exists; `atBuild` is treated as the guard-passing no-failure
prefix raising at the send, i.e. identically to `atSend`. -/
def send_start_request (b : Bridge) (fp : FailPoint) : Step :=
  if !b.connected then
    { bridge := b,
      notifs := [Notification.startFailure "UNDEFINED BEHAVIOR: Not Connected."],
      retval := some false }
  else
    match fp with
    | .atBuild e | .atSend e =>
        { bridge := { b with startRegistered := true },
          notifs := [Notification.startFailure e],
          acts := [CommsAction.registerStartResponseHandler],
          retval := some false }
    | .ok =>
        let tt := b.ackTimeout * (b.maxRetries : ℚ)
        { bridge := { b with startRegistered := true, startResponseReceived := false },
          notifs := [],
          acts := [CommsAction.registerStartResponseHandler,
                   CommsAction.sendStartRequest,
                   CommsAction.armTimer .start (tt * 1000).floor.toNat],
          retval := some true }

/-- `CommunicationBridge.send_stop_request` (lines 346-365): not-connected
guard, register `_on_stop_response` in the stop-response slot (once), send,
reset the flag, arm the deadline timer. As in `send_start_request`, there is
no build step. -/
def send_stop_request (b : Bridge) (fp : FailPoint) : Step :=
  if !b.connected then
    { bridge := b,
      notifs := [Notification.stopFailure "UNDEFINED BEHAVIOR: Not Connected."],
      retval := some false }
  else
    match fp with
    | .atBuild e | .atSend e =>
        { bridge := { b with stopRegistered := some .onStop },
          notifs := [Notification.stopFailure e],
          acts := [CommsAction.registerStopResponseHandler],
          retval := some false }
    | .ok =>
        let tt := b.ackTimeout * (b.maxRetries : ℚ)
        { bridge := { b with stopRegistered := some .onStop, stopResponseReceived := false },
          notifs := [],
          acts := [CommsAction.registerStopResponseHandler,
                   CommsAction.sendStopRequest,
                   CommsAction.armTimer .stop (tt * 1000).floor.toNat],
          retval := some true }

/-- `CommunicationBridge.disconnect` (lines 247-263): if `_comms_service` is
`None`, emit `disconnect_success("UNDEFINED BEHAVIOR: Not Connected.")` and
return (note: the success signal, not the failure one). Otherwise register
`_on_disconnect_response` in the stop-response slot, send a stop request,
reset the flag and arm the timer; if the send raises, emit
`disconnect_failure("Stop request failed... forcing cleanup.")` and run
`_cleanup()`. `disconnect` returns `None`, so `retval := none`. -/
def disconnect (b : Bridge) (fp : FailPoint) : Step :=
  if !b.connected then
    { bridge := b,
      notifs := [Notification.disconnectSuccess "UNDEFINED BEHAVIOR: Not Connected."] }
  else
    match fp with
    | .atBuild _ | .atSend _ =>
        let b1 := { b with stopRegistered := some .onDisconnect }
        let c := cleanup b1
        { bridge := c.bridge,
          notifs := Notification.disconnectFailure "Stop request failed... forcing cleanup."
            :: c.notifs,
          acts := CommsAction.registerStopResponseHandler :: c.acts,
          calls := c.calls }
    | .ok =>
        let tt := b.ackTimeout * (b.maxRetries : ℚ)
        { bridge := { b with stopRegistered := some .onDisconnect,
                             disconnectResponseReceived := false },
          notifs := [],
          acts := [CommsAction.registerStopResponseHandler,
                   CommsAction.sendStopRequest,
                   CommsAction.armTimer .disconnect (tt * 1000).floor.toNat] }

/-- `CommunicationBridge.cancel_connection` (lines 239-245): if a comms
service exists, stop and drop it and transition to `RADIO_CONFIG_INPUT`
(no record); otherwise do nothing. -/
def cancel_connection (b : Bridge) : Step :=
  if b.connected then
    let b1 := { b with connected := false }
    let t := smTransition b1 .RADIO_CONFIG_INPUT none
    { bridge := t.bridge,
      notifs := t.notifs,
      acts := CommsAction.commsStop :: t.acts,
      calls := t.calls }
  else
    { bridge := b }

/-- `CommunicationBridge._on_sync_response` (lines 679-691): set the flag;
on `success=False` emit `sync_failure` and transition to `ERROR`; on success
emit `sync_success`, register the continuous GPS handler (raises
`AttributeError` and aborts the callback if `_comms_service` is `None`), and
transition to `PING_FINDER_CONFIG_INPUT`. Both transitions pass no record. -/
def on_sync_response (b : Bridge) (success : Bool) : Step :=
  let b := { b with syncResponseReceived := true }
  if !success then
    let t := smTransition b .ERROR none
    { t with notifs := Notification.syncFailure "UNDEFINED BEHAVIOR: Sync failed." :: t.notifs }
  else
    if b.connected then
      let b1 := { b with gpsRegistered := true }
      let t := smTransition b1 .PING_FINDER_CONFIG_INPUT none
      { t with
        notifs := Notification.syncSuccess "Successfully connected to drone." :: t.notifs,
        acts := CommsAction.registerGpsHandler :: t.acts }
    else
      { bridge := b,
        notifs := [Notification.syncSuccess "Successfully connected to drone."] }

/-- `CommunicationBridge._on_config_response` (lines 693-704): set the flag;
on failure emit `config_failure` and transition to `ERROR`; on success emit
`config_success` and transition to `START_INPUT`. No record passed. -/
def on_config_response (b : Bridge) (success : Bool) : Step :=
  let b := { b with configResponseReceived := true }
  if !success then
    let t := smTransition b .ERROR none
    { t with notifs := Notification.configFailure "UNDEFINED BEHAVIOR: Config failed." :: t.notifs }
  else
    let t := smTransition b .START_INPUT none
    { t with notifs := Notification.configSuccess "Config sent to drone." :: t.notifs }

/-- `CommunicationBridge._on_start_response` (lines 706-719): set the flag;
on failure emit `start_failure` and transition to `ERROR`; on success emit
`start_success`, register the continuous ping and location-estimate handlers
(raise/abort if no comms service), transition to `STOP_INPUT`. -/
def on_start_response (b : Bridge) (success : Bool) : Step :=
  let b := { b with startResponseReceived := true }
  if !success then
    let t := smTransition b .ERROR none
    { t with notifs := Notification.startFailure "UNDEFINED BEHAVIOR: Improper state." :: t.notifs }
  else
    if b.connected then
      let b1 := { b with pingRegistered := true, locEstRegistered := true }
      let t := smTransition b1 .STOP_INPUT none
      { t with
        notifs := Notification.startSuccess "Drone is now starting." :: t.notifs,
        acts := CommsAction.registerPingHandler :: CommsAction.registerLocEstHandler :: t.acts }
    else
      { bridge := b,
        notifs := [Notification.startSuccess "Drone is now starting."] }

/-- `CommunicationBridge._on_stop_response` (lines 721-734): set the flag;
on failure emit `stop_failure` and transition to `ERROR`; on success emit
`stop_success`, unregister the ping and location-estimate handlers
(raise/abort if no comms service), transition to `PING_FINDER_CONFIG_INPUT`. -/
def on_stop_response (b : Bridge) (success : Bool) : Step :=
  let b := { b with stopResponseReceived := true }
  if !success then
    let t := smTransition b .ERROR none
    { t with notifs := Notification.stopFailure "UNDEFINED BEHAVIOR: Improper state." :: t.notifs }
  else
    if b.connected then
      let b1 := { b with pingRegistered := false, locEstRegistered := false }
      let t := smTransition b1 .PING_FINDER_CONFIG_INPUT none
      { t with
        notifs := Notification.stopSuccess "Drone is now stopping." :: t.notifs,
        acts := CommsAction.unregisterPingHandler :: CommsAction.unregisterLocEstHandler :: t.acts }
    else
      { bridge := b,
        notifs := [Notification.stopSuccess "Drone is now stopping."] }

/-- `CommunicationBridge._on_disconnect_response` (lines 736-749): set the
flag; on failure emit `disconnect_failure` and transition to `ERROR`; on
success emit `disconnect_success("Drone is now disconnected.")`, unregister
the GPS handler (raise/abort if no comms service), run `_cleanup()` (which
itself transitions to `RADIO_CONFIG_INPUT` and emits a second
`disconnect_success`), then transition to `RADIO_CONFIG_INPUT` once more. -/
def on_disconnect_response (b : Bridge) (success : Bool) : Step :=
  let b := { b with disconnectResponseReceived := true }
  if !success then
    let t := smTransition b .ERROR none
    { t with notifs := Notification.disconnectFailure "UNDEFINED BEHAVIOR: Improper state." :: t.notifs }
  else
    if b.connected then
      let b1 := { b with gpsRegistered := false }
      let c := cleanup b1
      let t := smTransition c.bridge .RADIO_CONFIG_INPUT none
      { bridge := t.bridge,
        notifs := Notification.disconnectSuccess "Drone is now disconnected."
          :: c.notifs ++ t.notifs,
        acts := CommsAction.unregisterGpsHandler :: c.acts ++ t.acts,
        calls := c.calls ++ t.calls }
    else
      { bridge := b,
        notifs := [Notification.disconnectSuccess "Drone is now disconnected."] }

/-- `CommunicationBridge._sync_timeout_check` (lines 645-649): if the sync
response has not been received, emit `sync_timeout` and set the flag;
otherwise do nothing. -/
def sync_timeout_check (b : Bridge) : Step :=
  if !b.syncResponseReceived then
    { bridge := { b with syncResponseReceived := true },
      notifs := [Notification.syncTimeout] }
  else
    { bridge := b }

/-- `CommunicationBridge._config_timeout_check` (lines 651-655). -/
def config_timeout_check (b : Bridge) : Step :=
  if !b.configResponseReceived then
    { bridge := { b with configResponseReceived := true },
      notifs := [Notification.configTimeout] }
  else
    { bridge := b }

/-- `CommunicationBridge._start_timeout_check` (lines 657-661). -/
def start_timeout_check (b : Bridge) : Step :=
  if !b.startResponseReceived then
    { bridge := { b with startResponseReceived := true },
      notifs := [Notification.startTimeout] }
  else
    { bridge := b }

/-- `CommunicationBridge._stop_timeout_check` (lines 663-667). -/
def stop_timeout_check (b : Bridge) : Step :=
  if !b.stopResponseReceived then
    { bridge := { b with stopResponseReceived := true },
      notifs := [Notification.stopTimeout] }
  else
    { bridge := b }

/-- `CommunicationBridge._disconnect_timeout_check` (lines 669-674): if the
disconnect response has not been received, emit
`disconnect_failure("Stop response not received => forcibly cleanup =>
disconnect_timeout.")`, run `_cleanup()`, and set the flag. -/
def disconnect_timeout_check (b : Bridge) : Step :=
  if !b.disconnectResponseReceived then
    let c := cleanup b
    { bridge := { c.bridge with disconnectResponseReceived := true },
      notifs := Notification.disconnectFailure
          "Stop response not received => forcibly cleanup => disconnect_timeout."
        :: c.notifs,
      acts := c.acts,
      calls := c.calls }
  else
    { bridge := b }

/-- Asynchronous occurrences after a send: a response packet of some kind
arrives (dispatched through the comms service's one-shot handler slots), or
an armed `QTimer.singleShot` deadline fires (running the corresponding
`_*_timeout_check`). -/
inductive BridgeEvent where
  | syncResponse (success : Bool)
  | configResponse (success : Bool)
  | startResponse (success : Bool)
  | stopResponse (success : Bool)
  | syncDeadline
  | configDeadline
  | startDeadline
  | stopDeadline
  | disconnectDeadline
  deriving DecidableEq, Repr

/-- Dispatch one event. Responses invoke the callback currently registered in
the phase's slot, if any, consuming it first (`once=True` one-shot
registration in the external comms service, spec §2 Response Registry);
a response with no registered callback is dropped. Stop-response packets are
dispatched to whichever of `_on_stop_response` / `_on_disconnect_response`
occupies the stop slot. Deadlines always run their check. -/
def dispatch (b : Bridge) : BridgeEvent → Step
  | .syncResponse s =>
      if b.syncRegistered then on_sync_response { b with syncRegistered := false } s
      else { bridge := b }
  | .configResponse s =>
      if b.configRegistered then on_config_response { b with configRegistered := false } s
      else { bridge := b }
  | .startResponse s =>
      if b.startRegistered then on_start_response { b with startRegistered := false } s
      else { bridge := b }
  | .stopResponse s =>
      match b.stopRegistered with
      | some .onStop => on_stop_response { b with stopRegistered := none } s
      | some .onDisconnect => on_disconnect_response { b with stopRegistered := none } s
      | none => { bridge := b }
  | .syncDeadline => sync_timeout_check b
  | .configDeadline => config_timeout_check b
  | .startDeadline => start_timeout_check b
  | .stopDeadline => stop_timeout_check b
  | .disconnectDeadline => disconnect_timeout_check b

/-- Run a sequence of events, concatenating the traces. -/
def runEvents (b : Bridge) : List BridgeEvent → Step
  | [] => { bridge := b }
  | e :: rest =>
      let s := dispatch b e
      let s' := runEvents s.bridge rest
      { bridge := s'.bridge,
        notifs := s.notifs ++ s'.notifs,
        acts := s.acts ++ s'.acts,
        calls := s.calls ++ s'.calls }

/-!
## Helper lemmas
-/

theorem dictGet?_dictInsert_self {κ α : Type} [DecidableEq κ]
    (d : List (κ × α)) (k : κ) (v : α) :
    dictGet? (dictInsert d k v) k = some v := by
  induction d with
  | nil => simp [dictInsert, dictGet?]
  | cons p rest ih =>
      by_cases h : p.1 = k
      · simp [dictInsert, dictGet?, h]
      · simp [dictInsert, dictGet?, h, ih]

/-- Reduce `transition_to` to its commit half when the precondition holds. -/
theorem transitionTo_eq_commit {σ H : Type} [DecidableEq σ]
    (m : DroneStateMachine σ H) (run : H → Option String) (name : σ → String)
    (new_state : σ) (tr : Option (StateTransition σ))
    (hpre : ∀ t, tr = some t → t.from_state = m.current_state) :
    transitionTo m run name new_state tr = transitionCommit m run new_state := by
  cases tr with
  | none => rfl
  | some t => simp [transitionTo, hpre t rfl]

theorem transitionCommit_state {σ H : Type} [DecidableEq σ]
    (m : DroneStateMachine σ H) (run : H → Option String) (new_state : σ) :
    (transitionCommit m run new_state).1.current_state = new_state := by
  unfold transitionCommit
  rcases hh : dictGet? m.transition_handlers new_state with _ | h
  · rfl
  · rcases hr : run h with _ | e <;> simp [hr]

theorem transitionCommit_invoked {σ H : Type} [DecidableEq σ]
    (m : DroneStateMachine σ H) (run : H → Option String) (new_state : σ) :
    (transitionCommit m run new_state).2.2
      = (dictGet? m.transition_handlers new_state).toList := by
  unfold transitionCommit
  rcases hh : dictGet? m.transition_handlers new_state with _ | h
  · rfl
  · rcases hr : run h with _ | e <;> simp [hr]

theorem transitionCommit_events_raise {σ H : Type} [DecidableEq σ]
    (m : DroneStateMachine σ H) (run : H → Option String) (new_state : σ)
    (h : H) (e : String)
    (hh : dictGet? m.transition_handlers new_state = some h)
    (hr : run h = some e) :
    (transitionCommit m run new_state).2.1
      = [SMEvent.state_error (handlerErrorMsg e)] := by
  unfold transitionCommit
  simp [hh, hr]

theorem transitionCommit_events_ok {σ H : Type} [DecidableEq σ]
    (m : DroneStateMachine σ H) (run : H → Option String) (new_state : σ)
    (h : H)
    (hh : dictGet? m.transition_handlers new_state = some h)
    (hr : run h = none) :
    (transitionCommit m run new_state).2.1 = [SMEvent.state_changed new_state] := by
  unfold transitionCommit
  simp [hh, hr]

theorem transitionCommit_events_nohandler {σ H : Type} [DecidableEq σ]
    (m : DroneStateMachine σ H) (run : H → Option String) (new_state : σ)
    (hh : dictGet? m.transition_handlers new_state = none) :
    (transitionCommit m run new_state).2.1 = [SMEvent.state_changed new_state] := by
  unfold transitionCommit
  simp [hh]

/-!
## Claim theorems
-/

/-- C1. The claim states the lifecycle state type is an enumeration with
exactly ten values (`Disconnected`, `RadioConfigInput`, ..., `Error`) and
that every state the orchestrator references is one of them. The code
diverges: `state_machine.py`'s `DroneState` has exactly the six members
`DISCONNECTED, CONNECTING, CONFIGURING, READY, RUNNING, ERROR`, while
`communication_bridge.py` references lifecycle member names (e.g.
`RADIO_CONFIG_WAITING`) that are not members of that enum — evaluating
`DroneState.RADIO_CONFIG_WAITING` in `_setup_state_handlers` raises
`AttributeError` as soon as a `CommunicationBridge` is constructed. -/
theorem c1_state_enum_divergence :
    (∀ s : DroneState, s ∈ droneStateMembers) ∧
    droneStateMembers.length = 6 ∧
    "RADIO_CONFIG_WAITING" ∈ bridgeReferencedStateNames ∧
    "RADIO_CONFIG_WAITING" ∉ droneStateMembers.map DroneState.pyName := by
  refine ⟨fun s => ?_, by decide, by decide, by decide⟩
  cases s <;> simp [droneStateMembers]

/-- C2. `transition_to(new_state, transition)` with a holding from-precondition
(or no transition record): the current state is set to `new_state`; the
handler registered for `new_state` (and only it) is invoked; if that handler
raises, the machine stays in `new_state` (no rollback) and exactly one
`state_error` is emitted; `state_changed` is emitted exactly when the invoked
handler did not raise or no handler was registered. -/
theorem c2_commit_semantics {σ H : Type} [DecidableEq σ]
    (m : DroneStateMachine σ H) (run : H → Option String) (name : σ → String)
    (new_state : σ) (tr : Option (StateTransition σ))
    (hpre : ∀ t, tr = some t → t.from_state = m.current_state) :
    (transitionTo m run name new_state tr).1.current_state = new_state ∧
    (transitionTo m run name new_state tr).2.2
      = (dictGet? m.transition_handlers new_state).toList ∧
    (∀ h e, dictGet? m.transition_handlers new_state = some h → run h = some e →
      (transitionTo m run name new_state tr).2.1
        = [SMEvent.state_error (handlerErrorMsg e)]) ∧
    (∀ h, dictGet? m.transition_handlers new_state = some h → run h = none →
      (transitionTo m run name new_state tr).2.1
        = [SMEvent.state_changed new_state]) ∧
    (dictGet? m.transition_handlers new_state = none →
      (transitionTo m run name new_state tr).2.1
        = [SMEvent.state_changed new_state]) := by
  rw [transitionTo_eq_commit m run name new_state tr hpre]
  exact ⟨transitionCommit_state m run new_state,
    transitionCommit_invoked m run new_state,
    fun h e hh hr => transitionCommit_events_raise m run new_state h e hh hr,
    fun h hh hr => transitionCommit_events_ok m run new_state h hh hr,
    fun hh => transitionCommit_events_nohandler m run new_state hh⟩

/-- Concrete instantiation of `c2_commit_semantics`: a machine in
`DISCONNECTED` with a handler for `READY` that raises, moved to `READY` via a
record whose `from_state` matches. -/
theorem c2_commit_semantics_witness :
    (∀ t : StateTransition DroneState,
      (some { from_state := DroneState.DISCONNECTED, to_state := DroneState.READY,
              success_message := "ok", failure_message := "bad" } : Option (StateTransition DroneState)) = some t →
      t.from_state = DroneState.DISCONNECTED) ∧
    (transitionTo
      { current_state := DroneState.DISCONNECTED,
        transition_handlers := [(DroneState.READY, 7)] }
      (fun _ => some "boom") (fun s => s.pyName) DroneState.READY
      (some { from_state := DroneState.DISCONNECTED, to_state := DroneState.READY,
              success_message := "ok", failure_message := "bad" })).1.current_state
      = DroneState.READY := by
  refine ⟨fun t ht => by cases ht; rfl, ?_⟩
  exact (c2_commit_semantics
    { current_state := DroneState.DISCONNECTED,
      transition_handlers := [(DroneState.READY, 7)] }
    (fun _ => some "boom") (fun s => s.pyName) DroneState.READY
    (some { from_state := DroneState.DISCONNECTED, to_state := DroneState.READY,
            success_message := "ok", failure_message := "bad" })
    (fun t ht => by cases ht; rfl)).1

/-- C3. `transition_to(new_state, transition)` with a mismatched
`transition.from_state`: the machine is returned entirely unchanged (no
mutation), exactly one `state_error` is emitted, built (as at
`state_machine.py` lines 83-86) from the actual current state, the requested
target, and the expected from-state, no handler is invoked, and no
`state_changed` is emitted. -/
theorem c3_reject_semantics {σ H : Type} [DecidableEq σ]
    (m : DroneStateMachine σ H) (run : H → Option String) (name : σ → String)
    (new_state : σ) (t : StateTransition σ)
    (hneq : t.from_state ≠ m.current_state) :
    transitionTo m run name new_state (some t)
      = (m, [SMEvent.state_error
              (invalidTransitionMsg (name m.current_state) (name new_state)
                (name t.from_state))], []) := by
  simp [transitionTo, hneq]

/-- Concrete instantiation of `c3_reject_semantics`: a record expecting
`READY` applied while the machine is in `DISCONNECTED`. -/
theorem c3_reject_semantics_witness :
    (({ from_state := DroneState.READY, to_state := DroneState.RUNNING,
        success_message := "ok", failure_message := "bad" } : StateTransition DroneState).from_state
      ≠ DroneState.DISCONNECTED) ∧
    transitionTo
      ({ current_state := DroneState.DISCONNECTED } : DroneStateMachine DroneState Nat)
      (fun _ => none) (fun s => s.pyName) DroneState.RUNNING
      (some { from_state := DroneState.READY, to_state := DroneState.RUNNING,
              success_message := "ok", failure_message := "bad" })
      = ({ current_state := DroneState.DISCONNECTED },
         [SMEvent.state_error
           (invalidTransitionMsg "DISCONNECTED" "RUNNING" "READY")], []) :=
  ⟨by decide,
   c3_reject_semantics
     { current_state := DroneState.DISCONNECTED }
     (fun _ => none) (fun s => s.pyName) DroneState.RUNNING
     { from_state := DroneState.READY, to_state := DroneState.RUNNING,
       success_message := "ok", failure_message := "bad" }
     (by decide)⟩

/-- C9. Registering two handlers for the same state in succession leaves only
the last one: the transition-handler table (source `register_transition_handler`,
a dict assignment) and the spec-modelled timeout-handler table each hold a
single slot per state, and a subsequent entry of `s` invokes only the
last-registered transition handler, while `s`'s timeout would invoke only the
last-registered timeout handler. -/
theorem c9_last_writer_wins {σ H : Type} [DecidableEq σ]
    (m : DroneStateMachine σ H) (run : H → Option String) (name : σ → String)
    (s : σ) (h1 h2 k1 k2 : H) :
    (transitionTo (register_transition_handler (register_transition_handler m s h1) s h2)
        run name s none).2.2 = [h2] ∧
    dictGet? (register_transition_handler (register_transition_handler m s h1) s h2).transition_handlers s
      = some h2 ∧
    timeoutHandlerFor (register_timeout_handler (register_timeout_handler m s k1) s k2) s
      = some k2 := by
  have hget : dictGet? (register_transition_handler (register_transition_handler m s h1) s h2).transition_handlers s
      = some h2 := by
    simp [register_transition_handler, dictGet?_dictInsert_self]
  refine ⟨?_, hget, ?_⟩
  · rw [show transitionTo (register_transition_handler (register_transition_handler m s h1) s h2)
          run name s none
        = transitionCommit (register_transition_handler (register_transition_handler m s h1) s h2)
            run s from rfl]
    rw [transitionCommit_invoked]
    rw [hget]
    rfl
  · simp [timeoutHandlerFor, register_timeout_handler, dictGet?_dictInsert_self]

/-- C10. `transition_to(new_state)` with no transition record never rejects:
for every machine and every target, the state is unconditionally set and the
handler registered for the target (if any) is the invoked one; and each of
the bridge's five response callbacks passes no `StateTransition` record to
any of its `transition_to` calls (every recorded call has `isSome = false`). -/
theorem c10_no_record_never_rejects :
    (∀ (σ H : Type) [DecidableEq σ] (m : DroneStateMachine σ H)
        (run : H → Option String) (name : σ → String) (new_state : σ),
      (transitionTo m run name new_state none).1.current_state = new_state ∧
      (transitionTo m run name new_state none).2.2
        = (dictGet? m.transition_handlers new_state).toList) ∧
    (∀ (b : Bridge) (s : Bool),
      ((on_sync_response b s).calls.all fun p => !p.2) = true ∧
      ((on_config_response b s).calls.all fun p => !p.2) = true ∧
      ((on_start_response b s).calls.all fun p => !p.2) = true ∧
      ((on_stop_response b s).calls.all fun p => !p.2) = true ∧
      ((on_disconnect_response b s).calls.all fun p => !p.2) = true) := by
  constructor
  · intro σ H _ m run name new_state
    exact ⟨transitionCommit_state m run new_state,
      transitionCommit_invoked m run new_state⟩
  · intro b s
    refine ⟨?_, ?_, ?_, ?_, ?_⟩ <;>
      · rcases hb : b.connected with _ | _ <;> cases s <;>
          simp [on_sync_response, on_config_response, on_start_response,
            on_stop_response, on_disconnect_response, smTransition, cleanup, hb]

/-- A connected bridge with no pending request: `_comms_service` present with
the given ack parameters, all response slots free, all flags at their
post-`__init__` defaults. -/
def idleBridge (st : LifecycleState) (q : ℚ) (n : Nat) : Bridge :=
  { connected := true, smState := st, ackTimeout := q, maxRetries := n }

/-- The bridge as constructed (`__init__`): no comms service, machine in its
initial state. -/
def freshBridge (st : LifecycleState) : Bridge :=
  { connected := false, smState := st }

/-- C4 (amended). Per send call, each side emits at most once and the
deadline is one-way suppressed: for sync/config/start/stop, (a) a deadline
firing after the response was processed adds no notification, (b) the
deadline check emits its timeout notification at most once even if the timer
path runs twice, (c) a response delivered after the deadline fired is *not*
suppressed — it still emits its success notification, so one call can yield
a timeout followed by a success/failure notification, and (d) a second
delivery of the same response kind is dropped (one-shot slot). For
disconnect, (e) the deadline path emits a failure and then a success
notification together. -/
theorem c4_per_call_notification_multiplicity
    (st : LifecycleState) (q : ℚ) (n : Nat) (s : Bool) :
    ((runEvents (init_comms (freshBridge .RADIO_CONFIG_INPUT) q n .ok).bridge
        [.syncResponse s, .syncDeadline]).notifs
      = (runEvents (init_comms (freshBridge .RADIO_CONFIG_INPUT) q n .ok).bridge
        [.syncResponse s]).notifs) ∧
    ((runEvents (init_comms (freshBridge .RADIO_CONFIG_INPUT) q n .ok).bridge
        [.syncDeadline, .syncDeadline]).notifs = [Notification.syncTimeout]) ∧
    ((runEvents (init_comms (freshBridge .RADIO_CONFIG_INPUT) q n .ok).bridge
        [.syncDeadline, .syncResponse true]).notifs
      = [Notification.syncTimeout,
         Notification.syncSuccess "Successfully connected to drone."]) ∧
    ((runEvents (init_comms (freshBridge .RADIO_CONFIG_INPUT) q n .ok).bridge
        [.syncResponse s, .syncResponse s]).notifs
      = (runEvents (init_comms (freshBridge .RADIO_CONFIG_INPUT) q n .ok).bridge
        [.syncResponse s]).notifs) ∧
    ((runEvents (send_config_request (idleBridge st q n) .ok).bridge
        [.configResponse s, .configDeadline]).notifs
      = (runEvents (send_config_request (idleBridge st q n) .ok).bridge
        [.configResponse s]).notifs) ∧
    ((runEvents (send_config_request (idleBridge st q n) .ok).bridge
        [.configDeadline, .configDeadline]).notifs = [Notification.configTimeout]) ∧
    ((runEvents (send_config_request (idleBridge st q n) .ok).bridge
        [.configDeadline, .configResponse true]).notifs
      = [Notification.configTimeout,
         Notification.configSuccess "Config sent to drone."]) ∧
    ((runEvents (send_config_request (idleBridge st q n) .ok).bridge
        [.configResponse s, .configResponse s]).notifs
      = (runEvents (send_config_request (idleBridge st q n) .ok).bridge
        [.configResponse s]).notifs) ∧
    ((runEvents (send_start_request (idleBridge st q n) .ok).bridge
        [.startResponse s, .startDeadline]).notifs
      = (runEvents (send_start_request (idleBridge st q n) .ok).bridge
        [.startResponse s]).notifs) ∧
    ((runEvents (send_start_request (idleBridge st q n) .ok).bridge
        [.startDeadline, .startDeadline]).notifs = [Notification.startTimeout]) ∧
    ((runEvents (send_start_request (idleBridge st q n) .ok).bridge
        [.startDeadline, .startResponse true]).notifs
      = [Notification.startTimeout,
         Notification.startSuccess "Drone is now starting."]) ∧
    ((runEvents (send_start_request (idleBridge st q n) .ok).bridge
        [.startResponse s, .startResponse s]).notifs
      = (runEvents (send_start_request (idleBridge st q n) .ok).bridge
        [.startResponse s]).notifs) ∧
    ((runEvents (send_stop_request (idleBridge st q n) .ok).bridge
        [.stopResponse s, .stopDeadline]).notifs
      = (runEvents (send_stop_request (idleBridge st q n) .ok).bridge
        [.stopResponse s]).notifs) ∧
    ((runEvents (send_stop_request (idleBridge st q n) .ok).bridge
        [.stopDeadline, .stopDeadline]).notifs = [Notification.stopTimeout]) ∧
    ((runEvents (send_stop_request (idleBridge st q n) .ok).bridge
        [.stopDeadline, .stopResponse true]).notifs
      = [Notification.stopTimeout,
         Notification.stopSuccess "Drone is now stopping."]) ∧
    ((runEvents (send_stop_request (idleBridge st q n) .ok).bridge
        [.stopResponse s, .stopResponse s]).notifs
      = (runEvents (send_stop_request (idleBridge st q n) .ok).bridge
        [.stopResponse s]).notifs) ∧
    ((runEvents (disconnect (idleBridge st q n) .ok).bridge
        [.disconnectDeadline]).notifs
      = [Notification.disconnectFailure
          "Stop response not received => forcibly cleanup => disconnect_timeout.",
         Notification.disconnectSuccess "Disconnected"]) := by
  cases s <;>
    exact ⟨rfl, rfl, rfl, rfl, rfl, rfl, rfl, rfl, rfl, rfl, rfl, rfl, rfl, rfl,
      rfl, rfl, rfl⟩

/-- C4 counterexample. The claim states that per `sendP` call at most one of
the phase's success/failure/timeout notifications ever fires. On the code,
one `send_config_request` call whose deadline fires and whose response then
arrives late yields TWO notifications: `config_timeout` and then
`config_success` (`_config_timeout_check` sets `_config_response_received`,
but `_on_config_response` never consults that flag, so the late response is
not suppressed). The send itself emits nothing. -/
theorem c4_counterexample :
    ((send_config_request (idleBridge .PING_FINDER_CONFIG_WAITING 2 3) .ok).notifs
      = []) ∧
    ((runEvents (send_config_request (idleBridge .PING_FINDER_CONFIG_WAITING 2 3) .ok).bridge
        [.configDeadline, .configResponse true]).notifs
      = [Notification.configTimeout,
         Notification.configSuccess "Config sent to drone."]) ∧
    ((runEvents (send_config_request (idleBridge .PING_FINDER_CONFIG_WAITING 2 3) .ok).bridge
        [.configDeadline, .configResponse true]).notifs.length = 2) :=
  ⟨rfl, rfl, rfl⟩

/-- C5 (amended). A transport-level send exception fails the call
synchronously with the underlying cause and arms no deadline timer in every
phase, and for config/start/stop it also leaves the state machine untouched
(though the response handler registered just before the send stays
registered). It does NOT leave the state machine unmutated in the other two
phases: in `initialize_comms` the machine has already moved
`RADIO_CONFIG_INPUT → RADIO_CONFIG_WAITING` before `send_sync_request` and
stays there; in `disconnect` the exception path forces `_cleanup()`, which
stops the session, moves the machine to `RADIO_CONFIG_INPUT` and emits an
additional `disconnect_success`. -/
theorem c5_send_failure_effects (st : LifecycleState) (q : ℚ) (n : Nat) (e : String) :
    (send_config_request (idleBridge st q n) (.atSend e)
      = { bridge := { idleBridge st q n with configRegistered := true },
          notifs := [Notification.configFailure e],
          acts := [CommsAction.registerConfigResponseHandler],
          retval := some false }) ∧
    (send_start_request (idleBridge st q n) (.atSend e)
      = { bridge := { idleBridge st q n with startRegistered := true },
          notifs := [Notification.startFailure e],
          acts := [CommsAction.registerStartResponseHandler],
          retval := some false }) ∧
    (send_stop_request (idleBridge st q n) (.atSend e)
      = { bridge := { idleBridge st q n with stopRegistered := some .onStop },
          notifs := [Notification.stopFailure e],
          acts := [CommsAction.registerStopResponseHandler],
          retval := some false }) ∧
    (init_comms (freshBridge .RADIO_CONFIG_INPUT) q n (.atSend e)
      = { bridge := { connected := true, syncRegistered := true,
                      smState := .RADIO_CONFIG_WAITING, ackTimeout := q, maxRetries := n },
          notifs := [Notification.syncFailure ("Initialize comms failed: " ++ e)],
          acts := [CommsAction.registerErrorHandler, CommsAction.registerSyncResponseHandler],
          calls := [(.RADIO_CONFIG_WAITING, true)],
          retval := some false }) ∧
    (disconnect (idleBridge st q n) (.atSend e)
      = { bridge := { connected := false, stopRegistered := some .onDisconnect,
                      smState := .RADIO_CONFIG_INPUT, ackTimeout := q, maxRetries := n },
          notifs := [Notification.disconnectFailure "Stop request failed... forcing cleanup.",
                     Notification.disconnectSuccess "Disconnected"],
          acts := [CommsAction.registerStopResponseHandler, CommsAction.commsStop],
          calls := [(.RADIO_CONFIG_INPUT, false)] }) :=
  ⟨rfl, rfl, rfl, rfl, rfl⟩

/-- C5 counterexample. The claim states that for every phase a raising send
leaves the state machine unmutated. For the sync phase it does not: a
connected-but-failing `initialize_comms` (send raises) leaves the machine in
`RADIO_CONFIG_WAITING`, not in its pre-call state `RADIO_CONFIG_INPUT`. -/
theorem c5_counterexample :
    ((freshBridge .RADIO_CONFIG_INPUT).smState = .RADIO_CONFIG_INPUT) ∧
    ((init_comms (freshBridge .RADIO_CONFIG_INPUT) 1 3 (.atSend "send failed")).bridge.smState
      = .RADIO_CONFIG_WAITING) :=
  ⟨rfl, rfl⟩

/-- C6 (amended). Every phase operation invoked with `_comms_service = None`
returns immediately without state change, without sending, and without
arming a timer, and emits exactly one notification carrying the message
"UNDEFINED BEHAVIOR: Not Connected." — but for `disconnect` that
notification is the `disconnect_success` signal, not a failure
notification; only config/start/stop emit their failure signal. -/
theorem c6_not_connected_guard (st : LifecycleState) (fp : FailPoint) :
    (send_config_request (freshBridge st) fp
      = { bridge := freshBridge st,
          notifs := [Notification.configFailure "UNDEFINED BEHAVIOR: Not Connected."],
          retval := some false }) ∧
    (send_start_request (freshBridge st) fp
      = { bridge := freshBridge st,
          notifs := [Notification.startFailure "UNDEFINED BEHAVIOR: Not Connected."],
          retval := some false }) ∧
    (send_stop_request (freshBridge st) fp
      = { bridge := freshBridge st,
          notifs := [Notification.stopFailure "UNDEFINED BEHAVIOR: Not Connected."],
          retval := some false }) ∧
    (disconnect (freshBridge st) fp
      = { bridge := freshBridge st,
          notifs := [Notification.disconnectSuccess "UNDEFINED BEHAVIOR: Not Connected."] }) :=
  ⟨rfl, rfl, rfl, rfl⟩

/-- C6 counterexample. The claim states `disconnect()` with no session fails
with a failure notification. On the code it emits `disconnect_success`
(carrying the "Not Connected" message), and no `disconnect_failure` at
all. -/
theorem c6_counterexample :
    ((disconnect (freshBridge .STOP_INPUT) .ok).notifs
      = [Notification.disconnectSuccess "UNDEFINED BEHAVIOR: Not Connected."]) ∧
    (((disconnect (freshBridge .STOP_INPUT) .ok).notifs.all
        (fun x => match x with
          | Notification.disconnectFailure _ => false
          | _ => true)) = true) :=
  ⟨rfl, rfl⟩

/-- C7. Each phase's deadline timer is armed for
`int(ack_timeout * max_retries * 1000)` milliseconds — i.e. the
`ackTimeout × maxRetries`-second deadline of the claim (the embedding keeps
Python's `int(tt * 1000)` millisecond conversion explicit as
`(q·n·1000).floor.toNat`) — and, for every phase, a deadline that fires after
the phase's response has been processed is a complete no-op: the event
sequence "response then late deadline" produces exactly the same bridge
state, notifications, collaborator calls and transitions as the response
alone. -/
theorem c7_deadline_value_and_late_deadline_noop
    (st : LifecycleState) (q : ℚ) (n : Nat) (s : Bool) :
    ((init_comms (freshBridge .RADIO_CONFIG_INPUT) q n .ok).acts
      = [CommsAction.registerErrorHandler, CommsAction.registerSyncResponseHandler,
         CommsAction.sendSyncRequest,
         CommsAction.armTimer .sync ((q * (n : ℚ)) * 1000).floor.toNat]) ∧
    ((send_config_request (idleBridge st q n) .ok).acts
      = [CommsAction.registerConfigResponseHandler, CommsAction.sendConfigRequest,
         CommsAction.armTimer .config ((q * (n : ℚ)) * 1000).floor.toNat]) ∧
    ((send_start_request (idleBridge st q n) .ok).acts
      = [CommsAction.registerStartResponseHandler, CommsAction.sendStartRequest,
         CommsAction.armTimer .start ((q * (n : ℚ)) * 1000).floor.toNat]) ∧
    ((send_stop_request (idleBridge st q n) .ok).acts
      = [CommsAction.registerStopResponseHandler, CommsAction.sendStopRequest,
         CommsAction.armTimer .stop ((q * (n : ℚ)) * 1000).floor.toNat]) ∧
    ((disconnect (idleBridge st q n) .ok).acts
      = [CommsAction.registerStopResponseHandler, CommsAction.sendStopRequest,
         CommsAction.armTimer .disconnect ((q * (n : ℚ)) * 1000).floor.toNat]) ∧
    (runEvents (init_comms (freshBridge .RADIO_CONFIG_INPUT) q n .ok).bridge
        [.syncResponse s, .syncDeadline]
      = runEvents (init_comms (freshBridge .RADIO_CONFIG_INPUT) q n .ok).bridge
        [.syncResponse s]) ∧
    (runEvents (send_config_request (idleBridge st q n) .ok).bridge
        [.configResponse s, .configDeadline]
      = runEvents (send_config_request (idleBridge st q n) .ok).bridge
        [.configResponse s]) ∧
    (runEvents (send_start_request (idleBridge st q n) .ok).bridge
        [.startResponse s, .startDeadline]
      = runEvents (send_start_request (idleBridge st q n) .ok).bridge
        [.startResponse s]) ∧
    (runEvents (send_stop_request (idleBridge st q n) .ok).bridge
        [.stopResponse s, .stopDeadline]
      = runEvents (send_stop_request (idleBridge st q n) .ok).bridge
        [.stopResponse s]) ∧
    (runEvents (disconnect (idleBridge st q n) .ok).bridge
        [.stopResponse s, .disconnectDeadline]
      = runEvents (disconnect (idleBridge st q n) .ok).bridge
        [.stopResponse s]) := by
  cases s <;> exact ⟨rfl, rfl, rfl, rfl, rfl, rfl, rfl, rfl, rfl, rfl⟩

/-- A connected bridge whose continuous GPS (telemetry) listener is
registered, as after a successful sync. -/
def trackingBridge (st : LifecycleState) (q : ℚ) (n : Nat) : Bridge :=
  { connected := true, gpsRegistered := true, smState := st, ackTimeout := q, maxRetries := n }

/-- C8 (amended). When `disconnect()` times out, the transport session is
torn down exactly once (one `stop()` call, service dropped) and the state
machine is forced to `RADIO_CONFIG_INPUT` by exactly one transition; the
check is idempotent (a second firing does nothing). The continuous
telemetry (GPS) listener is NOT unregistered on this path — `_cleanup()`
never calls `unregister_gps_handler` (only the disconnect-response success
path does). -/
theorem c8_disconnect_timeout_cleanup (st : LifecycleState) (q : ℚ) (n : Nat) :
    (disconnect_timeout_check (trackingBridge st q n)
      = { bridge := { connected := false, gpsRegistered := true,
                      disconnectResponseReceived := true,
                      smState := .RADIO_CONFIG_INPUT, ackTimeout := q, maxRetries := n },
          notifs := [Notification.disconnectFailure
              "Stop response not received => forcibly cleanup => disconnect_timeout.",
            Notification.disconnectSuccess "Disconnected"],
          acts := [CommsAction.commsStop],
          calls := [(.RADIO_CONFIG_INPUT, false)] }) ∧
    (disconnect_timeout_check (disconnect_timeout_check (trackingBridge st q n)).bridge
      = { bridge := (disconnect_timeout_check (trackingBridge st q n)).bridge }) :=
  ⟨rfl, rfl⟩

/-- C8 counterexample. The claim states the disconnect timeout unregisters
the continuous telemetry listener. On the code the timeout path performs
only `stop()` on the comms service (no `unregister_gps_handler` call): the
action trace is exactly `[commsStop]` and the GPS registration survives. -/
theorem c8_counterexample :
    ((disconnect_timeout_check (trackingBridge .STOP_INPUT 1 3)).acts
      = [CommsAction.commsStop]) ∧
    ((disconnect_timeout_check (trackingBridge .STOP_INPUT 1 3)).bridge.gpsRegistered
      = true) :=
  ⟨rfl, rfl⟩
